import Mathlib

/-!
Shallow embedding of `src/src/YearMonth.js` (js-joda's `YearMonth` class) and
proofs about it.

JavaScript numbers appearing in this file are embedded as `ℤ` (all values the
code manipulates are integers well inside the exactly-representable range of a
double, except for one deliberate spot in `minusMonths` where the source
evaluates `Math.MAX_SAFE_INTEGER`, a property that does not exist on the JS
`Math` object; that `undefined`/NaN pathway is embedded as `Option ℤ` with
`none` standing for the absent numeric value).

Fallible operations return `Except Err α`, mirroring thrown exceptions.

Helper classes (`MathUtil`, `ChronoField`, `ChronoUnit`, `ValueRange`, the
`Temporal` base class) are part of this repository but are not under `src/`;
where a definition for one of them is needed it is modelled from the spec and
marked `Modelled from the spec:` in its doc comment.
-/

deriving instance DecidableEq for Except

namespace JsJoda

/-- Error values thrown by the code: `DateTimeException`,
`UnsupportedTemporalTypeException` (a specialization of the former) and
`ArithmeticException` (overflow of the checked arithmetic helpers). -/
inductive Err where
  | dateTimeException (msg : String)
  | unsupportedTemporalTypeException (msg : String)
  | arithmeticException (msg : String)
deriving DecidableEq, Repr

namespace MathUtil

/-- Modelled from the spec: the library-wide safe-integer minimum
(JS `Number.MIN_SAFE_INTEGER`). -/
def MIN_SAFE_INTEGER : ℤ := -9007199254740991

/-- Modelled from the spec: the library-wide safe-integer maximum
(JS `Number.MAX_SAFE_INTEGER`). -/
def MAX_SAFE_INTEGER : ℤ := 9007199254740991

/-- Modelled from the spec: overflow-checked addition — fails with an
`ArithmeticException` rather than silently leaving the safe-integer domain. -/
def safeAdd (x y : ℤ) : Except Err ℤ :=
  if MIN_SAFE_INTEGER ≤ x + y ∧ x + y ≤ MAX_SAFE_INTEGER then .ok (x + y)
  else .error (.arithmeticException ("Invalid addition beyond MAX_SAFE_INTEGER"))

/-- Modelled from the spec: overflow-checked multiplication. -/
def safeMultiply (x y : ℤ) : Except Err ℤ :=
  if MIN_SAFE_INTEGER ≤ x * y ∧ x * y ≤ MAX_SAFE_INTEGER then .ok (x * y)
  else .error (.arithmeticException ("Invalid multiplication beyond MAX_SAFE_INTEGER"))

/-- Modelled from the spec: floor division (`Math.floor(x / y)`). -/
def floorDiv (x y : ℤ) : ℤ := Int.fdiv x y

/-- Modelled from the spec: floor modulo, `x - floorDiv(x, y) * y`. -/
def floorMod (x y : ℤ) : ℤ := x - (floorDiv x y) * y

end MathUtil

/-- Modelled from the spec: a `ValueRange` records the inclusive minimum and
maximum of valid values for a field (all field ranges used here are fixed, so
the four-value smallest/largest refinement of the library collapses to two). -/
structure ValueRange where
  minimum : ℤ
  maximum : ℤ
deriving DecidableEq, Repr

/-- ValueRange factory, mirroring `ValueRange.of(min, max)`. -/
def ValueRange.of (min max : ℤ) : ValueRange := ⟨min, max⟩

/-- Modelled from the spec: value-in-range test (NaN-free integer case). -/
def ValueRange.isValidValue (r : ValueRange) (v : ℤ) : Bool :=
  decide (r.minimum ≤ v) && decide (v ≤ r.maximum)

/-- Canonical invalid-value message used by the range checker. -/
def invalidValueMsg (fieldName : String) (r : ValueRange) (valueStr : String) : String :=
  "Invalid value for " ++ fieldName ++ " (valid values " ++ toString r.minimum ++
    " - " ++ toString r.maximum ++ "): " ++ valueStr

/-- Modelled from the spec: validate a value against the range, failing with a
`DateTimeException` when it is out of bounds. -/
def ValueRange.checkValidValue (r : ValueRange) (v : ℤ) (fieldName : String) : Except Err ℤ :=
  if r.isValidValue v then .ok v
  else .error (.dateTimeException (invalidValueMsg fieldName r (toString v)))

/-- 32-bit integer lower bound. -/
def INT_MIN_VALUE : ℤ := -2147483648

/-- 32-bit integer upper bound. -/
def INT_MAX_VALUE : ℤ := 2147483647

/-- Modelled from the spec: whether every value of the range fits the 32-bit-safe
entry points (`get` is described as the "32-bit-safe convenience"). -/
def ValueRange.isIntValue (r : ValueRange) : Bool :=
  decide (INT_MIN_VALUE ≤ r.minimum) && decide (r.maximum ≤ INT_MAX_VALUE)

/-- Modelled from the spec: the 32-bit-safe range check — a field whose declared
range does not fit the narrow entry point is rejected with an unsupported-type
error (this is the guard that rejects PROLEPTIC_MONTH at `get`), and an
in-int-range field with an out-of-range value fails as an invalid value. -/
def ValueRange.checkValidIntValue (r : ValueRange) (v : ℤ) (fieldName : String) : Except Err ℤ :=
  if r.isIntValue then r.checkValidValue v fieldName
  else .error (.unsupportedTemporalTypeException
    ("Invalid int value for " ++ fieldName ++ ": " ++ toString v))

/-- Modelled from the spec: the 32-bit-safe range check applied to a
possibly-NaN JS number (`none` is NaN). NaN compares false against every bound,
so it always fails validation. -/
def ValueRange.checkValidIntValueJs (r : ValueRange) (v : Option ℤ) (fieldName : String) :
    Except Err ℤ :=
  match v with
  | some x => r.checkValidIntValue x fieldName
  | none =>
    if r.isIntValue then .error (.dateTimeException (invalidValueMsg fieldName r "NaN"))
    else .error (.unsupportedTemporalTypeException
      ("Invalid int value for " ++ fieldName ++ ": NaN"))

/-- Modelled from the spec: the year bounds of the library (`Year.MIN_VALUE`). -/
def MIN_YEAR : ℤ := -999999999

/-- Modelled from the spec: the year bounds of the library (`Year.MAX_VALUE`). -/
def MAX_YEAR : ℤ := 999999999

/-- Modelled from the spec: the well-known field tokens. The five fields
supported by YearMonth, plus two further well-known fields
(`DAY_OF_MONTH`, `NANO_OF_SECOND`) standing for the
"recognized-but-unmatched" well-known tokens of the enumeration. -/
inductive ChronoField where
  | MONTH_OF_YEAR
  | PROLEPTIC_MONTH
  | YEAR_OF_ERA
  | YEAR
  | ERA
  | DAY_OF_MONTH
  | NANO_OF_SECOND
deriving DecidableEq, Repr

/-- Display name of a field (used in error messages). -/
def ChronoField.name : ChronoField → String
  | .MONTH_OF_YEAR => "MonthOfYear"
  | .PROLEPTIC_MONTH => "ProlepticMonth"
  | .YEAR_OF_ERA => "YearOfEra"
  | .YEAR => "Year"
  | .ERA => "Era"
  | .DAY_OF_MONTH => "DayOfMonth"
  | .NANO_OF_SECOND => "NanoOfSecond"

/-- Modelled from the spec: each field's declared `ValueRange`. -/
def ChronoField.range : ChronoField → ValueRange
  | .MONTH_OF_YEAR => ValueRange.of 1 12
  | .PROLEPTIC_MONTH => ValueRange.of (MIN_YEAR * 12) (MAX_YEAR * 12 + 11)
  | .YEAR_OF_ERA => ValueRange.of 1 (MAX_YEAR + 1)
  | .YEAR => ValueRange.of MIN_YEAR MAX_YEAR
  | .ERA => ValueRange.of 0 1
  | .DAY_OF_MONTH => ValueRange.of 1 31
  | .NANO_OF_SECOND => ValueRange.of 0 999999999

/-- Modelled from the spec: `ChronoField.checkValidValue`, validation against
the field's declared bounds. -/
def ChronoField.checkValidValue (f : ChronoField) (v : ℤ) : Except Err ℤ :=
  f.range.checkValidValue v f.name

/-- Modelled from the spec: `ChronoField.checkValidIntValue`, the 32-bit-safe
validation against the field's declared bounds. -/
def ChronoField.checkValidIntValue (f : ChronoField) (v : ℤ) : Except Err ℤ :=
  f.range.checkValidIntValue v f.name

/-- Modelled from the spec: the possibly-NaN variant of `checkValidIntValue`. -/
def ChronoField.checkValidIntValueJs (f : ChronoField) (v : Option ℤ) : Except Err ℤ :=
  f.range.checkValidIntValueJs v f.name

/-- Modelled from the spec: the well-known unit tokens. The six units supported
by YearMonth plus two further well-known units standing for the
"recognized-but-unmatched" tokens. -/
inductive ChronoUnit where
  | MONTHS
  | YEARS
  | DECADES
  | CENTURIES
  | MILLENNIA
  | ERAS
  | DAYS
  | WEEKS
deriving DecidableEq, Repr

/-- Display name of a unit (used in error messages). -/
def ChronoUnit.name : ChronoUnit → String
  | .MONTHS => "Months"
  | .YEARS => "Years"
  | .DECADES => "Decades"
  | .CENTURIES => "Centuries"
  | .MILLENNIA => "Millennia"
  | .ERAS => "Eras"
  | .DAYS => "Days"
  | .WEEKS => "Weeks"

/-- Modelled from the spec: field tokens and unit tokens are separate external
enumerations (spec §3), so a unit value is never an instance of the
`ChronoField` class — the JS test `unit instanceof ChronoField` is false for
every `ChronoUnit`. -/
def ChronoUnit.instanceOfChronoField (_ : ChronoUnit) : Bool := false

/-- The `YearMonth` value: the `_year` and `_month` fields of the class. -/
structure YearMonth where
  year : ℤ
  month : ℤ
deriving DecidableEq, Repr

namespace YearMonth

/-- `YearMonth._ofYearMonthNumber(year, month)`: validates both fields against
their declared ranges, then constructs. -/
def _ofYearMonthNumber (year month : ℤ) : Except Err YearMonth := do
  let _ ← ChronoField.YEAR.checkValidValue year
  let _ ← ChronoField.MONTH_OF_YEAR.checkValidValue month
  .ok ⟨year, month⟩

/-- `YearMonth.of(year, month)` with two numeric arguments resolves to
`_ofYearMonthNumber`. -/
def of (year month : ℤ) : Except Err YearMonth := _ofYearMonthNumber year month

/-- `_withYearMonth(newYear, newMonth)`: the source returns `this` unchanged
when both fields already match (a reference-identity optimization invisible in
a value model) and otherwise a fresh instance; both cases are the same value. -/
def _withYearMonth (_ym : YearMonth) (newYear newMonth : ℤ) : YearMonth :=
  ⟨newYear, newMonth⟩

/-- `_isSupportedField(field)` restricted to well-known (`ChronoField`) tokens;
the source method reads no instance state on this branch. -/
def _isSupportedField (field : ChronoField) : Bool :=
  field = .YEAR || field = .MONTH_OF_YEAR || field = .PROLEPTIC_MONTH ||
    field = .YEAR_OF_ERA || field = .ERA

/-- Modelled from the spec: the generic range query inherited from the temporal
base class (not under `src/`) — a supported well-known field yields its declared
range, an unsupported one fails (spec §4.3). -/
def superRange (field : ChronoField) : Except Err ValueRange :=
  if _isSupportedField field then .ok field.range
  else .error (.unsupportedTemporalTypeException ("Unsupported field: " ++ field.name))

/-- `range(field)`: YEAR_OF_ERA gets an instance-refined range (maximum is
`MAX_YEAR + 1` when the year is at most 0), everything else defers to the
inherited generic range query. -/
def range (ym : YearMonth) (field : ChronoField) : Except Err ValueRange :=
  if field = ChronoField.YEAR_OF_ERA then
    .ok (if ym.year ≤ 0 then ValueRange.of 1 (MAX_YEAR + 1) else ValueRange.of 1 MAX_YEAR)
  else superRange field

/-- `_getProlepticMonth()`: `safeAdd(safeMultiply(year, 12), month - 1)`. -/
def _getProlepticMonth (ym : YearMonth) : Except Err ℤ := do
  let a ← MathUtil.safeMultiply ym.year 12
  MathUtil.safeAdd a (ym.month - 1)

/-- `getLong(field)` restricted to well-known (`ChronoField`) tokens: the
five-way dispatch, any other well-known field falls to the
`UnsupportedTemporalTypeException` throw after the switch. -/
def getLong (ym : YearMonth) (field : ChronoField) : Except Err ℤ :=
  match field with
  | .MONTH_OF_YEAR => .ok ym.month
  | .PROLEPTIC_MONTH => ym._getProlepticMonth
  | .YEAR_OF_ERA => .ok (if ym.year < 1 then 1 - ym.year else ym.year)
  | .YEAR => .ok ym.year
  | .ERA => .ok (if ym.year < 1 then 0 else 1)
  | f => .error (.unsupportedTemporalTypeException ("Unsupported field: " ++ f.name))

/-- `get(field)`: `this.range(field).checkValidIntValue(this.getLong(field), field)`
— `range` is evaluated first, then `getLong`, then the 32-bit-safe check. -/
def get (ym : YearMonth) (field : ChronoField) : Except Err ℤ := do
  let r ← ym.range field
  let v ← ym.getLong field
  r.checkValidIntValue v field.name

/-- `withYear(year)`: validate, then replace the year only. -/
def withYear (ym : YearMonth) (year : ℤ) : Except Err YearMonth := do
  let _ ← ChronoField.YEAR.checkValidValue year
  .ok (ym._withYearMonth year ym.month)

/-- `withMonth(month)`: validate, then replace the month only. -/
def withMonth (ym : YearMonth) (month : ℤ) : Except Err YearMonth := do
  let _ ← ChronoField.MONTH_OF_YEAR.checkValidValue month
  .ok (ym._withYearMonth ym.year month)

/-- `plusYears(yearsToAdd)`: no-op for 0, else the new year is
`YEAR.checkValidIntValue(year + yearsToAdd)` and the month is unchanged. -/
def plusYears (ym : YearMonth) (yearsToAdd : ℤ) : Except Err YearMonth :=
  if yearsToAdd = 0 then .ok ym
  else do
    let newYear ← ChronoField.YEAR.checkValidIntValue (ym.year + yearsToAdd)
    .ok (ym._withYearMonth newYear ym.month)

/-- `plusMonths(monthsToAdd)` over a possibly-undefined JS amount (`none` is
`undefined`). The `some` branch is the source body on an ordinary number:
`monthCount = year*12 + (month-1)`, `calcMonths = monthCount + monthsToAdd`,
`newYear = YEAR.checkValidIntValue(floorDiv(calcMonths, 12))` (computed, and
thrown from, before `newMonth`), `newMonth = floorMod(calcMonths, 12) + 1`.
On `undefined`: `undefined === 0` is false, `monthCount + undefined` and its
floor-division are NaN, and the YEAR range check rejects NaN. -/
def plusMonthsCore (ym : YearMonth) (monthsToAdd : Option ℤ) : Except Err YearMonth :=
  match monthsToAdd with
  | none =>
    match ChronoField.YEAR.checkValidIntValueJs none with
    | .error e => .error e
    | .ok newYear => .ok (ym._withYearMonth newYear 0)
  | some n =>
    if n = 0 then .ok ym
    else
      let monthCount : ℤ := ym.year * 12 + (ym.month - 1)
      let calcMonths : ℤ := monthCount + n
      match ChronoField.YEAR.checkValidIntValue (MathUtil.floorDiv calcMonths 12) with
      | .error e => .error e
      | .ok newYear => .ok (ym._withYearMonth newYear (MathUtil.floorMod calcMonths 12 + 1))

/-- `plusMonths(monthsToAdd)` on an ordinary (defined) number. -/
def plusMonths (ym : YearMonth) (monthsToAdd : ℤ) : Except Err YearMonth :=
  ym.plusMonthsCore (some monthsToAdd)

/-- `_withFieldValue(field, newValue)` restricted to well-known tokens: the new
value is validated against the field's declared bounds first, then the five-way
dispatch runs; any other well-known field falls to the
`UnsupportedTemporalTypeException` throw after the switch. -/
def _withFieldValue (ym : YearMonth) (field : ChronoField) (newValue : ℤ) :
    Except Err YearMonth := do
  let _ ← field.checkValidValue newValue
  match field with
  | .MONTH_OF_YEAR => ym.withMonth newValue
  | .PROLEPTIC_MONTH => do
    let current ← ym.getLong .PROLEPTIC_MONTH
    ym.plusMonths (newValue - current)
  | .YEAR_OF_ERA => ym.withYear (if ym.year < 1 then 1 - newValue else newValue)
  | .YEAR => ym.withYear newValue
  | .ERA => do
    let era ← ym.getLong .ERA
    if era = newValue then .ok ym else ym.withYear (1 - ym.year)
  | f => .error (.unsupportedTemporalTypeException ("Unsupported field: " ++ f.name))

/-- `_plusAmountUnit(amountToAdd, unit)` restricted to well-known unit tokens.
The source guards the dispatch switch with `unit instanceof ChronoField` (line
630); `ChronoUnit.addTo` is outside `src/`, so the deferral target is a
parameter `addTo`. -/
def _plusAmountUnit (addTo : ChronoUnit → YearMonth → ℤ → Except Err YearMonth)
    (ym : YearMonth) (amountToAdd : ℤ) (unit : ChronoUnit) : Except Err YearMonth :=
  if unit.instanceOfChronoField then
    match unit with
    | .MONTHS => ym.plusMonths amountToAdd
    | .YEARS => ym.plusYears amountToAdd
    | .DECADES => do
      let a ← MathUtil.safeMultiply amountToAdd 10
      ym.plusYears a
    | .CENTURIES => do
      let a ← MathUtil.safeMultiply amountToAdd 100
      ym.plusYears a
    | .MILLENNIA => do
      let a ← MathUtil.safeMultiply amountToAdd 1000
      ym.plusYears a
    | .ERAS => do
      let era ← ym.getLong .ERA
      let v ← MathUtil.safeAdd era amountToAdd
      ym._withFieldValue .ERA v
    | u => .error (.unsupportedTemporalTypeException ("Unsupported unit: " ++ u.name))
  else addTo unit ym amountToAdd

/-- `_minusAmountUnit(amountToSubtract, unit)`: the MIN_SAFE_INTEGER amount is
handled as `plus(MAX_SAFE_INTEGER, unit)` then `plus(1, unit)`, every other
amount as `plus(-amountToSubtract, unit)`. -/
def _minusAmountUnit (addTo : ChronoUnit → YearMonth → ℤ → Except Err YearMonth)
    (ym : YearMonth) (amountToSubtract : ℤ) (unit : ChronoUnit) : Except Err YearMonth :=
  if amountToSubtract = MathUtil.MIN_SAFE_INTEGER then do
    let a ← ym._plusAmountUnit addTo MathUtil.MAX_SAFE_INTEGER unit
    a._plusAmountUnit addTo 1 unit
  else ym._plusAmountUnit addTo (-amountToSubtract) unit

/-- `minusYears(yearsToSubtract)` as written in the source (line 734): the
MIN_SAFE_INTEGER amount is handled as
`plusYears(MathUtil.MIN_SAFE_INTEGER).plusYears(1)`, every other amount as
`plusYears(-yearsToSubtract)`. -/
def minusYears (ym : YearMonth) (yearsToSubtract : ℤ) : Except Err YearMonth :=
  if yearsToSubtract = MathUtil.MIN_SAFE_INTEGER then do
    let a ← ym.plusYears MathUtil.MIN_SAFE_INTEGER
    a.plusYears 1
  else ym.plusYears (-yearsToSubtract)

/-- `minusMonths(monthsToSubtract)` as written in the source (line 747): the
MIN_SAFE_INTEGER amount is handled as
`plusMonths(Math.MAX_SAFE_INTEGER).plusMonths(1)` — the JS `Math` object has no
`MAX_SAFE_INTEGER` property, so that argument is `undefined` (`none`); every
other amount is `plusMonths(-monthsToSubtract)`. -/
def minusMonths (ym : YearMonth) (monthsToSubtract : ℤ) : Except Err YearMonth :=
  if monthsToSubtract = MathUtil.MIN_SAFE_INTEGER then do
    let a ← ym.plusMonthsCore none
    a.plusMonths 1
  else ym.plusMonths (-monthsToSubtract)

end YearMonth

/-- A JS value presented to `equals`: `null`/`undefined`, a `YearMonth`
instance, or any other object. -/
inductive JsValue where
  | null
  | yearMonth (ym : YearMonth)
  | other (typeName : String)

/-- `equals(obj)`: reference identity, then `instanceof YearMonth` with a
field-by-field comparison, else false. The reference-identity fast path
(`this === obj`) returns true exactly when `obj` is this very instance, in
which case the field comparison also yields true, so it is invisible in a
value model. The method never throws. -/
def YearMonth.equals (ym : YearMonth) (obj : JsValue) : Bool :=
  match obj with
  | .yearMonth other => ym.year == other.year && ym.month == other.month
  | _ => false

/-- A foreign temporal accessor: its own field query (which may throw), its
string rendering and its constructor's runtime type name. -/
structure TemporalAccessor where
  get : ChronoField → Except Err ℤ
  str : String
  ctorName : String

/-- The argument of `YearMonth.from`: either already a `YearMonth` instance or
some other temporal accessor. -/
inductive TemporalInput where
  | ym (v : YearMonth)
  | acc (a : TemporalAccessor)

namespace YearMonth

/-- The try-block of `from`: extract YEAR then MONTH_OF_YEAR through the
temporal's own field query, then construct through `of`. -/
def fromTry (temporal : TemporalAccessor) : Except Err YearMonth := do
  let y ← temporal.get .YEAR
  let m ← temporal.get .MONTH_OF_YEAR
  YearMonth.of y m

/-- `YearMonth.from(temporal)` (`from` is reserved in Lean, hence the name):
identity on a `YearMonth` argument; otherwise run the extraction and map any
failure to a `DateTimeException` describing the source object and its runtime
type name. -/
def fromTemporal : TemporalInput → Except Err YearMonth
  | .ym v => .ok v
  | .acc temporal =>
    match fromTry temporal with
    | .ok v => .ok v
    | .error _ => .error (.dateTimeException
        ("Unable to obtain YearMonth from TemporalAccessor: " ++ temporal.str ++
          ", type " ++ temporal.ctorName))

/-- Modelled from the spec: `minusYears` as the spec words it — the
most-negative representable amount is handled by adding the positive extreme
(the library's safe-integer maximum) then adding 1; every other amount is
negated and delegated to `plusYears`. Kept beside the source's `minusYears`
for comparison. -/
def minusYearsSpec (ym : YearMonth) (yearsToSubtract : ℤ) : Except Err YearMonth :=
  if yearsToSubtract = MathUtil.MIN_SAFE_INTEGER then do
    let a ← ym.plusYears MathUtil.MAX_SAFE_INTEGER
    a.plusYears 1
  else ym.plusYears (-yearsToSubtract)

end YearMonth

/-- A concrete foreign temporal accessor whose field query always fails, used
to exhibit the failure path of `YearMonth.from`. -/
def failingAccessor : TemporalAccessor :=
  { get := fun f => .error (.unsupportedTemporalTypeException ("Unsupported field: " ++ f.name))
    str := "2007"
    ctorName := "String" }

/-! ## Helper lemmas -/

theorem safeMultiply_ok (x y : ℤ)
    (h : MathUtil.MIN_SAFE_INTEGER ≤ x * y ∧ x * y ≤ MathUtil.MAX_SAFE_INTEGER) :
    MathUtil.safeMultiply x y = .ok (x * y) := by
  simp only [MathUtil.safeMultiply]
  rw [if_pos h]

theorem safeAdd_ok (x y : ℤ)
    (h : MathUtil.MIN_SAFE_INTEGER ≤ x + y ∧ x + y ≤ MathUtil.MAX_SAFE_INTEGER) :
    MathUtil.safeAdd x y = .ok (x + y) := by
  simp only [MathUtil.safeAdd]
  rw [if_pos h]

theorem getProlepticMonth_ok (y m : ℤ) (hy1 : MIN_YEAR ≤ y) (hy2 : y ≤ MAX_YEAR)
    (hm1 : 1 ≤ m) (hm2 : m ≤ 12) :
    YearMonth._getProlepticMonth ⟨y, m⟩ = .ok (y * 12 + (m - 1)) := by
  have h1 : MathUtil.safeMultiply y 12 = .ok (y * 12) := by
    refine safeMultiply_ok y 12 ?_
    simp only [MathUtil.MIN_SAFE_INTEGER, MathUtil.MAX_SAFE_INTEGER]
    simp only [MIN_YEAR, MAX_YEAR] at hy1 hy2
    omega
  have h2 : MathUtil.safeAdd (y * 12) (m - 1) = .ok (y * 12 + (m - 1)) := by
    refine safeAdd_ok (y * 12) (m - 1) ?_
    simp only [MathUtil.MIN_SAFE_INTEGER, MathUtil.MAX_SAFE_INTEGER]
    simp only [MIN_YEAR, MAX_YEAR] at hy1 hy2
    omega
  simp [YearMonth._getProlepticMonth, h1, h2, Bind.bind, Except.bind]

theorem YEAR_checkValidIntValue (v : ℤ) :
    ChronoField.YEAR.checkValidIntValue v =
      if MIN_YEAR ≤ v ∧ v ≤ MAX_YEAR then .ok v
      else .error (.dateTimeException
        (invalidValueMsg "Year" ChronoField.YEAR.range (toString v))) := by
  simp only [ChronoField.checkValidIntValue, ValueRange.checkValidIntValue]
  rw [if_pos (by decide : (ChronoField.YEAR.range).isIntValue = true)]
  simp only [ValueRange.checkValidValue, ValueRange.isValidValue, ChronoField.range,
    ChronoField.name, ValueRange.of, Bool.and_eq_true, decide_eq_true_eq]

theorem floorDiv_twelve (x : ℤ) : MathUtil.floorDiv x 12 = x / 12 :=
  Int.fdiv_eq_ediv x (by norm_num)

theorem floorMod_twelve (x : ℤ) : MathUtil.floorMod x 12 = x % 12 := by
  simp only [MathUtil.floorMod, floorDiv_twelve, Int.emod_def]
  ring

theorem checkValidValue_of_isValid (f : ChronoField) (v : ℤ)
    (h : f.range.isValidValue v = true) : f.checkValidValue v = .ok v := by
  simp [ChronoField.checkValidValue, ValueRange.checkValidValue, h]

theorem checkValidValue_of_notValid (f : ChronoField) (v : ℤ)
    (h : f.range.isValidValue v = false) :
    f.checkValidValue v =
      .error (.dateTimeException (invalidValueMsg f.name f.range (toString v))) := by
  simp [ChronoField.checkValidValue, ValueRange.checkValidValue, h]

/-! ## Claim theorems -/

/-- C1: the claim says `plus(amountToAdd, unit)` dispatches the six well-known
unit tokens to plusMonths/plusYears/the ERA adjustment and fails on other
well-known units. In the source the dispatch switch is guarded by
`unit instanceof ChronoField`, which no unit token ever satisfies, so every
call — whatever the unit — defers to the external `unit.addTo` and neither the
six dispatch cases nor the `UnsupportedTemporalTypeException` throw can ever
run. -/
theorem plus_unit_dispatch_unreachable :
    ∀ (addTo : ChronoUnit → YearMonth → ℤ → Except Err YearMonth)
      (ym : YearMonth) (amountToAdd : ℤ) (unit : ChronoUnit),
      YearMonth._plusAmountUnit addTo ym amountToAdd unit = addTo unit ym amountToAdd := by
  intro addTo ym amountToAdd unit
  simp [YearMonth._plusAmountUnit, ChronoUnit.instanceOfChronoField]

/-- C2: the claim says the boundary amount MIN_SAFE_INTEGER is handled by
adding the positive extreme MAX_SAFE_INTEGER then 1. The source's `minusYears`
instead evaluates `plusYears(MIN_SAFE_INTEGER).plusYears(1)` — subtracting the
extreme again — and `minusMonths` evaluates `plusMonths(Math.MAX_SAFE_INTEGER)`
where `Math.MAX_SAFE_INTEGER` is `undefined`, so it adds NaN. Evaluated at
`of(2000, 6)`: the code's `minusYears` fails reporting the year
2000 + MIN_SAFE_INTEGER = -9007199254738991 while the spec's version fails
reporting 2000 + MAX_SAFE_INTEGER = 9007199254742991 — the two differ — and
`minusMonths` fails on the NaN year. -/
theorem minusYears_boundary_divergence :
    YearMonth.minusYears ⟨2000, 6⟩ MathUtil.MIN_SAFE_INTEGER =
      .error (.dateTimeException
        "Invalid value for Year (valid values -999999999 - 999999999): -9007199254738991") ∧
    YearMonth.minusYearsSpec ⟨2000, 6⟩ MathUtil.MIN_SAFE_INTEGER =
      .error (.dateTimeException
        "Invalid value for Year (valid values -999999999 - 999999999): 9007199254742991") ∧
    YearMonth.minusYears ⟨2000, 6⟩ MathUtil.MIN_SAFE_INTEGER ≠
      YearMonth.minusYearsSpec ⟨2000, 6⟩ MathUtil.MIN_SAFE_INTEGER ∧
    YearMonth.minusMonths ⟨2000, 6⟩ MathUtil.MIN_SAFE_INTEGER =
      .error (.dateTimeException
        "Invalid value for Year (valid values -999999999 - 999999999): NaN") :=
  ⟨by decide, by decide, by decide, by decide⟩

/-- C3: `plusMonths(n)` is a no-op for n = 0 and otherwise produces the year
`floorDiv(y*12 + (m-1) + n, 12)` checked against the YEAR range (failing when
out of range) and the month `floorMod(y*12 + (m-1) + n, 12) + 1`; in
particular `of(2007,12).plusMonths(1) = of(2008,1)` and
`of(2008,1).minusMonths(1) = of(2007,12)`. -/
theorem plusMonths_formula :
    (∀ y m n : ℤ, YearMonth.plusMonths ⟨y, m⟩ n =
      (if n = 0 then .ok ⟨y, m⟩
       else
        match ChronoField.YEAR.checkValidIntValue
            (MathUtil.floorDiv (y * 12 + (m - 1) + n) 12) with
        | .ok newYear => .ok ⟨newYear, MathUtil.floorMod (y * 12 + (m - 1) + n) 12 + 1⟩
        | .error e => .error e)) ∧
    YearMonth.plusMonths ⟨2007, 12⟩ 1 = .ok ⟨2008, 1⟩ ∧
    YearMonth.minusMonths ⟨2008, 1⟩ 1 = .ok ⟨2007, 12⟩ := by
  refine ⟨?_, by decide, by decide⟩
  intro y m n
  by_cases hn : n = 0
  · simp [hn, YearMonth.plusMonths, YearMonth.plusMonthsCore]
  · simp only [YearMonth.plusMonths, YearMonth.plusMonthsCore, if_neg hn]
    cases h : ChronoField.YEAR.checkValidIntValue
        (MathUtil.floorDiv (y * 12 + (m - 1) + n) 12) with
    | ok w => simp [h, YearMonth._withYearMonth]
    | error e => simp [h]

/-- C8: `range(YEAR_OF_ERA)` is `1..MAX_YEAR` when the year is at least 1 and
`1..MAX_YEAR+1` when the year is below 1. -/
theorem range_yearOfEra : ∀ y m : ℤ,
    (1 ≤ y → YearMonth.range ⟨y, m⟩ .YEAR_OF_ERA = .ok (ValueRange.of 1 MAX_YEAR)) ∧
    (y < 1 → YearMonth.range ⟨y, m⟩ .YEAR_OF_ERA = .ok (ValueRange.of 1 (MAX_YEAR + 1))) := by
  intro y m
  constructor
  · intro h
    have hy : ¬ ((⟨y, m⟩ : YearMonth).year ≤ 0) := by show ¬ (y ≤ 0); omega
    simp [YearMonth.range, hy]
  · intro h
    have hy : (⟨y, m⟩ : YearMonth).year ≤ 0 := by show y ≤ 0; omega
    simp [YearMonth.range, hy]

/-- C8 witness: both branches evaluated at concrete year-months. -/
theorem range_yearOfEra_witness :
    YearMonth.range ⟨2007, 6⟩ .YEAR_OF_ERA = .ok (ValueRange.of 1 MAX_YEAR) ∧
    YearMonth.range ⟨0, 6⟩ .YEAR_OF_ERA = .ok (ValueRange.of 1 (MAX_YEAR + 1)) :=
  ⟨(range_yearOfEra 2007 6).1 (by decide), (range_yearOfEra 0 6).2 (by decide)⟩

/-- C10: `equals(obj)` is total (never throws), returns false on null and on
any non-YearMonth object, returns true on the identical instance, and on a
YearMonth argument returns true exactly when the years and the months both
agree. -/
theorem equals_characterization : ∀ ym : YearMonth,
    YearMonth.equals ym .null = false ∧
    (∀ s, YearMonth.equals ym (.other s) = false) ∧
    YearMonth.equals ym (.yearMonth ym) = true ∧
    (∀ o, YearMonth.equals ym (.yearMonth o) = true ↔ ym.year = o.year ∧ ym.month = o.month) := by
  intro ym
  refine ⟨rfl, fun s => rfl, ?_, fun o => ?_⟩
  · simp [YearMonth.equals]
  · simp [YearMonth.equals]

/-- C4: `getLong` on the five well-known fields returns the month, the
proleptic month `y*12 + (m-1)` (overflow-checked), the year-of-era
(`1-y` below year 1, else `y`), the year, and the era (0 below year 1, else
1); every other well-known field fails with
`UnsupportedTemporalTypeException`. -/
theorem getLong_dispatch : ∀ y m : ℤ,
    MIN_YEAR ≤ y → y ≤ MAX_YEAR → 1 ≤ m → m ≤ 12 →
    YearMonth.getLong ⟨y, m⟩ .MONTH_OF_YEAR = .ok m ∧
    YearMonth.getLong ⟨y, m⟩ .PROLEPTIC_MONTH = .ok (y * 12 + (m - 1)) ∧
    YearMonth.getLong ⟨y, m⟩ .YEAR_OF_ERA = .ok (if y < 1 then 1 - y else y) ∧
    YearMonth.getLong ⟨y, m⟩ .YEAR = .ok y ∧
    YearMonth.getLong ⟨y, m⟩ .ERA = .ok (if y < 1 then 0 else 1) ∧
    (∀ f : ChronoField, f ≠ .MONTH_OF_YEAR → f ≠ .PROLEPTIC_MONTH → f ≠ .YEAR_OF_ERA →
      f ≠ .YEAR → f ≠ .ERA →
      YearMonth.getLong ⟨y, m⟩ f =
        .error (.unsupportedTemporalTypeException ("Unsupported field: " ++ f.name))) := by
  intro y m hy1 hy2 hm1 hm2
  refine ⟨rfl, ?_, rfl, rfl, rfl, ?_⟩
  · exact getProlepticMonth_ok y m hy1 hy2 hm1 hm2
  · intro f h1 h2 h3 h4 h5
    cases f with
    | MONTH_OF_YEAR => exact absurd rfl h1
    | PROLEPTIC_MONTH => exact absurd rfl h2
    | YEAR_OF_ERA => exact absurd rfl h3
    | YEAR => exact absurd rfl h4
    | ERA => exact absurd rfl h5
    | DAY_OF_MONTH => rfl
    | NANO_OF_SECOND => rfl

/-- C4 witness: the dispatch evaluated at `of(2007, 12)`. -/
theorem getLong_dispatch_witness :
    ((MIN_YEAR ≤ (2007 : ℤ)) ∧ ((2007 : ℤ) ≤ MAX_YEAR) ∧ ((1 : ℤ) ≤ 12) ∧ ((12 : ℤ) ≤ 12)) ∧
    YearMonth.getLong ⟨2007, 12⟩ .PROLEPTIC_MONTH = .ok (2007 * 12 + (12 - 1)) :=
  ⟨by decide,
    (getLong_dispatch 2007 12 (by decide) (by decide) (by decide) (by decide)).2.1⟩

/-- C5: `get(PROLEPTIC_MONTH)` — the 32-bit entry point, which runs `range`,
then `getLong`, then the 32-bit-safe range check — fails with an
unsupported-type error (the declared PROLEPTIC_MONTH range does not fit the
narrow entry point), while `getLong(PROLEPTIC_MONTH)` succeeds with
`y*12 + (m-1)` on the same value. -/
theorem get_prolepticMonth_rejected : ∀ y m : ℤ,
    MIN_YEAR ≤ y → y ≤ MAX_YEAR → 1 ≤ m → m ≤ 12 →
    YearMonth.get ⟨y, m⟩ .PROLEPTIC_MONTH =
      .error (.unsupportedTemporalTypeException
        ("Invalid int value for " ++ ChronoField.PROLEPTIC_MONTH.name ++ ": " ++
          toString (y * 12 + (m - 1)))) ∧
    YearMonth.getLong ⟨y, m⟩ .PROLEPTIC_MONTH = .ok (y * 12 + (m - 1)) := by
  intro y m hy1 hy2 hm1 hm2
  have hpm : YearMonth.getLong ⟨y, m⟩ .PROLEPTIC_MONTH = .ok (y * 12 + (m - 1)) :=
    getProlepticMonth_ok y m hy1 hy2 hm1 hm2
  refine ⟨?_, hpm⟩
  have hr : YearMonth.range ⟨y, m⟩ .PROLEPTIC_MONTH =
      .ok (ChronoField.range .PROLEPTIC_MONTH) := rfl
  simp only [YearMonth.get, hr, hpm, Bind.bind, Except.bind, ValueRange.checkValidIntValue]
  rw [if_neg (by decide)]

/-- C5 witness: both entry points evaluated at `of(2007, 12)`. -/
theorem get_prolepticMonth_rejected_witness :
    YearMonth.get ⟨2007, 12⟩ .PROLEPTIC_MONTH =
      .error (.unsupportedTemporalTypeException
        ("Invalid int value for " ++ ChronoField.PROLEPTIC_MONTH.name ++ ": " ++
          toString ((2007 : ℤ) * 12 + (12 - 1)))) ∧
    YearMonth.getLong ⟨2007, 12⟩ .PROLEPTIC_MONTH = .ok ((2007 : ℤ) * 12 + (12 - 1)) :=
  get_prolepticMonth_rejected 2007 12 (by decide) (by decide) (by decide) (by decide)

/-- C9: `from` is the identity on a YearMonth argument; otherwise it extracts
YEAR and MONTH_OF_YEAR through the argument's own field query and constructs
through `of`, and any failure of that extraction surfaces as a
`DateTimeException` whose message carries the source object and its runtime
type name. -/
theorem from_behavior :
    (∀ v : YearMonth, YearMonth.fromTemporal (.ym v) = .ok v) ∧
    (∀ (a : TemporalAccessor) (yy mm : ℤ), a.get .YEAR = .ok yy →
      a.get .MONTH_OF_YEAR = .ok mm → YearMonth.fromTry a = YearMonth.of yy mm) ∧
    (∀ (a : TemporalAccessor) (v : YearMonth), YearMonth.fromTry a = .ok v →
      YearMonth.fromTemporal (.acc a) = .ok v) ∧
    (∀ (a : TemporalAccessor) (e : Err), YearMonth.fromTry a = .error e →
      YearMonth.fromTemporal (.acc a) = .error (.dateTimeException
        ("Unable to obtain YearMonth from TemporalAccessor: " ++ a.str ++
          ", type " ++ a.ctorName))) := by
  refine ⟨fun v => rfl, ?_, ?_, ?_⟩
  · intro a yy mm h1 h2
    simp [YearMonth.fromTry, h1, h2, Bind.bind, Except.bind]
  · intro a v h
    simp [YearMonth.fromTemporal, h]
  · intro a e h
    simp [YearMonth.fromTemporal, h]

/-- C9 witness: the failure path evaluated on a concrete foreign accessor
whose field query throws. -/
theorem from_behavior_witness :
    YearMonth.fromTry failingAccessor =
      .error (.unsupportedTemporalTypeException
        ("Unsupported field: " ++ ChronoField.YEAR.name)) ∧
    YearMonth.fromTemporal (.acc failingAccessor) = .error (.dateTimeException
      ("Unable to obtain YearMonth from TemporalAccessor: " ++ failingAccessor.str ++
        ", type " ++ failingAccessor.ctorName)) :=
  ⟨rfl, from_behavior.2.2.2 failingAccessor
    (.unsupportedTemporalTypeException ("Unsupported field: " ++ ChronoField.YEAR.name)) rfl⟩

/-- C6: `with(field, newValue)` on a well-known field first validates
`newValue` against the field's declared bounds (DateTimeException when out of
bounds), then: MONTH_OF_YEAR replaces only the month; PROLEPTIC_MONTH shifts
by the delta to the current proleptic month through the month-addition
algorithm; YEAR_OF_ERA replaces the year with `1 - newValue` below year 1,
else `newValue`; YEAR replaces only the year; ERA returns the same value when
the era already matches, else replaces the year with `1 - year`; any other
well-known field fails with `UnsupportedTemporalTypeException`. -/
theorem withFieldValue_dispatch : ∀ y m v : ℤ,
    MIN_YEAR ≤ y → y ≤ MAX_YEAR → 1 ≤ m → m ≤ 12 →
    (∀ f : ChronoField, f.range.isValidValue v = false →
      YearMonth._withFieldValue ⟨y, m⟩ f v =
        .error (.dateTimeException (invalidValueMsg f.name f.range (toString v)))) ∧
    (1 ≤ v → v ≤ 12 →
      YearMonth._withFieldValue ⟨y, m⟩ .MONTH_OF_YEAR v = .ok ⟨y, v⟩) ∧
    (MIN_YEAR * 12 ≤ v → v ≤ MAX_YEAR * 12 + 11 →
      YearMonth._withFieldValue ⟨y, m⟩ .PROLEPTIC_MONTH v =
        YearMonth.plusMonths ⟨y, m⟩ (v - (y * 12 + (m - 1)))) ∧
    (1 ≤ v → v ≤ MAX_YEAR + 1 →
      YearMonth._withFieldValue ⟨y, m⟩ .YEAR_OF_ERA v =
        YearMonth.withYear ⟨y, m⟩ (if y < 1 then 1 - v else v)) ∧
    (MIN_YEAR ≤ v → v ≤ MAX_YEAR →
      YearMonth._withFieldValue ⟨y, m⟩ .YEAR v = .ok ⟨v, m⟩) ∧
    (0 ≤ v → v ≤ 1 →
      YearMonth._withFieldValue ⟨y, m⟩ .ERA v =
        (if (if y < 1 then (0 : ℤ) else 1) = v then .ok ⟨y, m⟩
         else YearMonth.withYear ⟨y, m⟩ (1 - y))) ∧
    (∀ f : ChronoField, f ≠ .MONTH_OF_YEAR → f ≠ .PROLEPTIC_MONTH → f ≠ .YEAR_OF_ERA →
      f ≠ .YEAR → f ≠ .ERA → f.range.isValidValue v = true →
      YearMonth._withFieldValue ⟨y, m⟩ f v =
        .error (.unsupportedTemporalTypeException ("Unsupported field: " ++ f.name))) := by
  intro y m v hy1 hy2 hm1 hm2
  refine ⟨?_, ?_, ?_, ?_, ?_, ?_, ?_⟩
  · intro f h
    have he := checkValidValue_of_notValid f v h
    simp [YearMonth._withFieldValue, he, Bind.bind, Except.bind]
  · intro h1 h2
    have hv : (ChronoField.MONTH_OF_YEAR).range.isValidValue v = true := by
      simp [ChronoField.range, ValueRange.isValidValue, ValueRange.of, h1, h2]
    have hok := checkValidValue_of_isValid .MONTH_OF_YEAR v hv
    simp [YearMonth._withFieldValue, hok, Bind.bind, Except.bind, YearMonth.withMonth,
      YearMonth._withYearMonth]
  · intro h1 h2
    have hv : (ChronoField.PROLEPTIC_MONTH).range.isValidValue v = true := by
      simp only [ChronoField.range, ValueRange.isValidValue, ValueRange.of, MIN_YEAR,
        MAX_YEAR] at h1 h2 ⊢
      simp only [Bool.and_eq_true, decide_eq_true_eq]
      omega
    have hok := checkValidValue_of_isValid .PROLEPTIC_MONTH v hv
    have hpm : YearMonth.getLong ⟨y, m⟩ .PROLEPTIC_MONTH = .ok (y * 12 + (m - 1)) :=
      getProlepticMonth_ok y m hy1 hy2 hm1 hm2
    simp [YearMonth._withFieldValue, hok, hpm, Bind.bind, Except.bind]
  · intro h1 h2
    have hv : (ChronoField.YEAR_OF_ERA).range.isValidValue v = true := by
      simp only [ChronoField.range, ValueRange.isValidValue, ValueRange.of, MAX_YEAR] at h2 ⊢
      simp only [Bool.and_eq_true, decide_eq_true_eq]
      omega
    have hok := checkValidValue_of_isValid .YEAR_OF_ERA v hv
    simp [YearMonth._withFieldValue, hok, Bind.bind, Except.bind]
  · intro h1 h2
    have hv : (ChronoField.YEAR).range.isValidValue v = true := by
      simp only [ChronoField.range, ValueRange.isValidValue, ValueRange.of, MIN_YEAR,
        MAX_YEAR] at h1 h2 ⊢
      simp [h1, h2]
    have hok := checkValidValue_of_isValid .YEAR v hv
    simp [YearMonth._withFieldValue, hok, Bind.bind, Except.bind, YearMonth.withYear,
      YearMonth._withYearMonth]
  · intro h1 h2
    have hv : (ChronoField.ERA).range.isValidValue v = true := by
      simp [ChronoField.range, ValueRange.isValidValue, ValueRange.of, h1, h2]
    have hok := checkValidValue_of_isValid .ERA v hv
    simp [YearMonth._withFieldValue, hok, Bind.bind, Except.bind, YearMonth.getLong]
  · intro f h1 h2 h3 h4 h5 hvalid
    have hok := checkValidValue_of_isValid f v hvalid
    cases f with
    | MONTH_OF_YEAR => exact absurd rfl h1
    | PROLEPTIC_MONTH => exact absurd rfl h2
    | YEAR_OF_ERA => exact absurd rfl h3
    | YEAR => exact absurd rfl h4
    | ERA => exact absurd rfl h5
    | DAY_OF_MONTH => simp [YearMonth._withFieldValue, hok, Bind.bind, Except.bind]
    | NANO_OF_SECOND => simp [YearMonth._withFieldValue, hok, Bind.bind, Except.bind]

/-- Characterization of `plusMonths` for a non-zero amount, with floor
division and floor modulo rewritten to Euclidean division and modulo by the
positive constant 12 (they agree there). -/
theorem plusMonths_eq (y m n : ℤ) (hn : n ≠ 0) :
    YearMonth.plusMonths ⟨y, m⟩ n =
      (if MIN_YEAR ≤ (y * 12 + (m - 1) + n) / 12 ∧ (y * 12 + (m - 1) + n) / 12 ≤ MAX_YEAR
       then .ok ⟨(y * 12 + (m - 1) + n) / 12, (y * 12 + (m - 1) + n) % 12 + 1⟩
       else .error (.dateTimeException (invalidValueMsg "Year" ChronoField.YEAR.range
         (toString ((y * 12 + (m - 1) + n) / 12))))) := by
  simp only [YearMonth.plusMonths, YearMonth.plusMonthsCore, if_neg hn,
    YEAR_checkValidIntValue, floorDiv_twelve, floorMod_twelve]
  by_cases h : MIN_YEAR ≤ (y * 12 + (m - 1) + n) / 12 ∧ (y * 12 + (m - 1) + n) / 12 ≤ MAX_YEAR
  · simp [h, YearMonth._withYearMonth]
  · simp [h]

/-- C7: whenever both operations succeed, `plusMonths(n)` followed by
`minusMonths(n)` returns the original value. -/
theorem plusMonths_minusMonths_roundtrip : ∀ (y m n : ℤ) (ym1 ym2 : YearMonth),
    MIN_YEAR ≤ y → y ≤ MAX_YEAR → 1 ≤ m → m ≤ 12 →
    YearMonth.plusMonths ⟨y, m⟩ n = .ok ym1 →
    YearMonth.minusMonths ym1 n = .ok ym2 →
    ym2 = ⟨y, m⟩ := by
  intro y m n ym1 ym2 hy1 hy2 hm1 hm2 h1 h2
  by_cases hn : n = 0
  · subst hn
    simp only [YearMonth.plusMonths, YearMonth.plusMonthsCore, if_pos] at h1
    injection h1 with h1'
    subst h1'
    simp only [YearMonth.minusMonths] at h2
    rw [if_neg (by decide)] at h2
    simp only [neg_zero, YearMonth.plusMonths, YearMonth.plusMonthsCore, if_pos] at h2
    injection h2 with h2'
    exact h2'.symm
  · rw [plusMonths_eq y m n hn] at h1
    by_cases hq : MIN_YEAR ≤ (y * 12 + (m - 1) + n) / 12 ∧ (y * 12 + (m - 1) + n) / 12 ≤ MAX_YEAR
    · rw [if_pos hq] at h1
      injection h1 with h1'
      subst h1'
      have hnMIN : n ≠ MathUtil.MIN_SAFE_INTEGER := by
        simp only [MathUtil.MIN_SAFE_INTEGER]
        simp only [MIN_YEAR, MAX_YEAR] at hq hy1 hy2
        omega
      simp only [YearMonth.minusMonths] at h2
      rw [if_neg hnMIN] at h2
      have hnn : -n ≠ 0 := by omega
      rw [plusMonths_eq ((y * 12 + (m - 1) + n) / 12) ((y * 12 + (m - 1) + n) % 12 + 1)
        (-n) hnn] at h2
      have key : (y * 12 + (m - 1) + n) / 12 * 12 + ((y * 12 + (m - 1) + n) % 12 + 1 - 1)
          + -n = y * 12 + (m - 1) := by omega
      rw [key] at h2
      have hdy : (y * 12 + (m - 1)) / 12 = y := by omega
      have hdm : (y * 12 + (m - 1)) % 12 = m - 1 := by omega
      rw [hdy, hdm, if_pos ⟨hy1, hy2⟩] at h2
      injection h2 with h2'
      rw [← h2']
      simp only [YearMonth.mk.injEq]
      exact ⟨by simp, by omega⟩
    · rw [if_neg hq] at h1
      exact absurd h1 (by simp)

/-- C7 witness: the round trip evaluated at `of(2007, 12)` with n = 1. -/
theorem plusMonths_minusMonths_roundtrip_witness :
    YearMonth.plusMonths ⟨2007, 12⟩ 1 = .ok ⟨2008, 1⟩ ∧
    YearMonth.minusMonths ⟨2008, 1⟩ 1 = .ok ⟨2007, 12⟩ ∧
    (⟨2007, 12⟩ : YearMonth) = ⟨2007, 12⟩ :=
  ⟨by decide, by decide,
    plusMonths_minusMonths_roundtrip 2007 12 1 ⟨2008, 1⟩ ⟨2007, 12⟩
      (by decide) (by decide) (by decide) (by decide) (by decide) (by decide)⟩

/-- C6 witness: the dispatch evaluated at `of(2007, 12)` with new value 5. -/
theorem withFieldValue_dispatch_witness :
    ((MIN_YEAR ≤ (2007 : ℤ)) ∧ ((2007 : ℤ) ≤ MAX_YEAR) ∧ ((1 : ℤ) ≤ 12) ∧ ((12 : ℤ) ≤ 12)) ∧
    ((1 : ℤ) ≤ 5 → (5 : ℤ) ≤ 12 →
      YearMonth._withFieldValue ⟨2007, 12⟩ .MONTH_OF_YEAR 5 = .ok ⟨2007, 5⟩) :=
  ⟨by decide,
    (withFieldValue_dispatch 2007 12 5 (by decide) (by decide) (by decide) (by decide)).2.1⟩

end JsJoda
